import Mathlib

/-!
Verification of the Userman server (src/server/src/server.ts): a shallow
embedding of the session/role guard chain and the CRUD route handlers,
together with theorems checking the specification's claims against it.

Conventions of the embedding:
* JavaScript values that may be `undefined` are modelled as `Option`.
* The MySQL table `userlist` is modelled as a list of rows; each SQL
  statement issued by the server is embedded as the corresponding pure
  operation on that list.
* A store/driver failure is injected through a parameter `sf : Option String`
  (`none` = the store call succeeds, `some e` = the driver reports error `e`).
* Each handler is a pure function from its inputs, the session and the
  database to a triple (response, new session, new database).
-/

namespace Userman

/-- JavaScript string coercion of a possibly-undefined value:
`String(undefined)` is `"undefined"`, which is what `'...' + err` produces
when `err` is `undefined`. -/
def jsStr : Option String → String
  | none => "undefined"
  | some s => s

/-- JavaScript truthiness of a possibly-undefined string
(`undefined` and `""` are falsy), as used by `if (firstName && lastName)`. -/
def truthy : Option String → Bool
  | none => false
  | some s => s != ""

/-- Modelled from the spec: `src/server/model/rights.ts` is not in the
repository.  The spec describes `Rights` as a small closed ordinal enum with
`User < Admin` ("higher is more privileged"); the API examples show the admin
ordinal as 2. -/
inductive Rights where
  | User : Rights
  | Admin : Rights
deriving Repr, DecidableEq

/-- The numeric ordinal of a role, used for the "at least" comparisons. -/
def Rights.ord : Rights → Nat
  | .User => 1
  | .Admin => 2

/-- A row of the `userlist` table, with the columns used by the server:
id (auto-generated), creationTime, username, password (the stored digest),
firstName, lastName, rights. -/
structure Row where
  id : Nat
  creationTime : String
  username : String
  password : String
  firstName : String
  lastName : String
  rights : Nat
deriving Repr, DecidableEq

/-- `users[0].time` in the login handler: `SELECT * FROM userlist` returns no
column named `time`, so this property access yields `undefined` on every row
(`new Date(undefined)` is then an Invalid Date, modelled as `none`). -/
def Row.time (_ : Row) : Option String := none

/-- Modelled from the spec: `src/server/model/user.ts` is not in the
repository.  The spec's data model and the constructor calls in the server
give the `User` snapshot the fields id, username, firstName, lastName,
creationTime and rights; the password digest is not among them ("never
returned").  `creationTime` is `Option` because the login handler builds it
from the absent `time` column (see `Row.time`). -/
structure User where
  id : Nat
  username : String
  firstName : String
  lastName : String
  creationTime : Option String
  rights : Nat
deriving Repr, DecidableEq

/-- The per-request session: holds at most one authenticated user snapshot
(`req.session.user`). -/
structure Session where
  user : Option User
deriving Repr, DecidableEq

/-- The fields of a request body that any handler reads, each possibly absent.
A `rights` field is included to make explicit that a client may send one:
no handler ever reads it. -/
structure Body where
  username : Option String := none
  password : Option String := none
  firstName : Option String := none
  lastName : Option String := none
  rights : Option String := none
deriving Repr, DecidableEq

/-- An HTTP response: status code and JSON body (message, optional user,
optional user list). -/
structure Resp where
  status : Nat
  message : String
  user : Option User := none
  userList : Option (List User) := none
deriving Repr, DecidableEq

/-- The database state: the rows of `userlist`. -/
abbrev Db := List Row

/-- Outcome of awaiting the promise returned by `query`: resolution with the
driver result, or rejection with the rejection value. -/
inductive QueryOutcome (α : Type) where
  | resolved : α → QueryOutcome α
  | rejected : Option String → QueryOutcome α
deriving Repr, DecidableEq

/-- server.ts lines 69-79: `database.query` invokes its callback with
`(err, result)`; when `err` is set the promise is rejected with `result` —
which is `undefined` in that case — so the driver error `e` itself is
dropped.  `result` is the embedded outcome of the SQL statement. -/
def query (sf : Option String) (result : α) : QueryOutcome α :=
  match sf with
  | some _ => .rejected none
  | none => .resolved result

/-- `SELECT * FROM userlist WHERE username = ? AND password = ?` with the
login body's username (an SQL NULL parameter, from an absent field, matches
no row) and the computed digest. -/
def selectUserPass (username : Option String) (digestVal : String) (db : Db) : List Row :=
  db.filter (fun r => username == some r.username && r.password == digestVal)

/-- `SELECT * FROM userlist WHERE id = ?`. -/
def selectById (userId : Nat) (db : Db) : List Row :=
  db.filter (fun r => r.id == userId)

/-- The id the store assigns to a newly inserted row (auto-increment). -/
def nextId (db : Db) : Nat :=
  (db.map Row.id).foldr max 0 + 1

/-- `INSERT INTO userlist (creationTime, username, password, firstName,
lastName, rights) VALUES (?, ?, ?, ?, ?, ?)`. -/
def insertRow (creationTime username password firstName lastName : String)
    (rightsOrd : Nat) (db : Db) : Db :=
  db ++ [⟨nextId db, creationTime, username, password, firstName, lastName, rightsOrd⟩]

/-- The row transformation of `UPDATE userlist SET firstName = ?,
lastName = ? WHERE id = ?` on a single row. -/
def updRow (userId : Nat) (firstName lastName : String) (r : Row) : Row :=
  if r.id == userId then { r with firstName := firstName, lastName := lastName } else r

/-- `UPDATE userlist SET firstName = ?, lastName = ? WHERE id = ?`:
the updated table and the driver's `affectedRows` (rows matching the id). -/
def updateNames (firstName lastName : String) (userId : Nat) (db : Db) : Db × Nat :=
  (db.map (updRow userId firstName lastName),
   (db.filter (fun r => r.id == userId)).length)

/-- `DELETE FROM userlist WHERE id = ?`: the remaining table and the
driver's `affectedRows`. -/
def deleteById (userId : Nat) (db : Db) : Db × Nat :=
  (db.filter (fun r => r.id != userId),
   (db.filter (fun r => r.id == userId)).length)

/-- server.ts lines 96-109, `isLoggedIn()`: result of the session guard. -/
inductive Guard1 where
  | next : Guard1
  | halt : Resp → Guard1
deriving Repr, DecidableEq

/-- The 401 response of the session guard. -/
def sessionExpiredResp : Resp :=
  { status := 401, message := "Session expired, please log in again" }

/-- server.ts lines 96-109: continue with the route when `req.session.user`
is set, otherwise answer 401 without running the handler. -/
def isLoggedIn (s : Session) : Guard1 :=
  match s.user with
  | some _ => .next
  | none => .halt sessionExpiredResp

/-- Result of the privilege guard.  `crash` models the JavaScript `TypeError`
raised by reading `req.session.user.rights` when `req.session.user` is
`undefined`: the guard has no branch of its own for that case. -/
inductive Guard2 where
  | next : Guard2
  | halt : Resp → Guard2
  | crash : Guard2
deriving Repr, DecidableEq

/-- The 403 response of the privilege guard. -/
def notAllowedResp : Resp :=
  { status := 403, message := "You are not allowed to execute this action" }

/-- server.ts lines 123-136, `isPrivilegedAtLeast(rights)`: reject with 403
when `rights > Number(req.session.user.rights)`, otherwise continue. -/
def isPrivilegedAtLeast (rights : Nat) (s : Session) : Guard2 :=
  match s.user with
  | none => .crash
  | some u => if rights > u.rights then .halt notAllowedResp else .next

/-- The user snapshot the login handler builds from the matched row
(server.ts lines 236-241); note it reads `users[0].time`, see `Row.time`. -/
def loginSnapshot (row : Row) : User :=
  ⟨row.id, row.username, row.firstName, row.lastName, Row.time row, row.rights⟩

/-- The user snapshot built from a row by `GET /user/:id` and `GET /users`,
which read the real `creationTime` column. -/
def rowSnapshot (row : Row) : User :=
  ⟨row.id, row.username, row.firstName, row.lastName, some row.creationTime, row.rights⟩

/-- server.ts lines 223-258, `POST /login` handler: digest the password,
select by (username, digest); exactly one row logs the user in and stores the
snapshot in the session, otherwise 401; a rejected query maps to 500. -/
def login (digest : Option String → String) (b : Body) (sf : Option String)
    (s : Session) (db : Db) : Resp × Session × Db :=
  let d := digest b.password
  match query sf (selectUserPass b.username d db) with
  | .resolved users =>
    match users with
    | [row] =>
      let user := loginSnapshot row
      ({ status := 200, message := "Successfully logged in", user := some user },
       ⟨some user⟩, db)
    | _ =>
      ({ status := 401, message := "Username or password is incorrect." }, s, db)
  | .rejected e =>
    ({ status := 500, message := "Database request failed: " ++ jsStr e }, s, db)

/-- server.ts lines 313-354, `createUser`: digest the password, require
firstName and lastName truthy, insert with rights fixed to `Rights.User`;
a rejected query maps to a 400 "could not create" answer. -/
def createUser (digest : Option String → String) (now : String) (b : Body)
    (sf : Option String) (s : Session) (db : Db) : Resp × Session × Db :=
  let password := digest b.password
  if truthy b.firstName && truthy b.lastName then
    match query sf (insertRow now (jsStr b.username) password
        (jsStr b.firstName) (jsStr b.lastName) Rights.User.ord db) with
    | .resolved db' =>
      ({ status := 201, message := "Successfully created new user" }, s, db')
    | .rejected _ =>
      ({ status := 400, message := "An error occured while creating the new user" }, s, db)
  else
    ({ status := 400, message := "Not all mandatory fields are filled in" }, s, db)

/-- server.ts lines 389-422, `getUserfromId`: select by id; exactly one row
answers 200 with the snapshot, otherwise 404; a rejected query maps to 500. -/
def getUserfromId (userId : Nat) (sf : Option String) (s : Session) (db : Db) :
    Resp × Session × Db :=
  match query sf (selectById userId db) with
  | .resolved rows =>
    match rows with
    | [row] =>
      ({ status := 200, message := "Successfully got user", user := some (rowSnapshot row) },
       s, db)
    | _ =>
      ({ status := 404, message := "The requested user can not be found." }, s, db)
  | .rejected e =>
    ({ status := 500, message := "Database request failed: " ++ jsStr e }, s, db)

/-- server.ts lines 460-493, `update`: require firstName and lastName truthy,
update the two name columns by id; `affectedRows != 1` and a rejected query
both map to the same 400 "could not be found" answer. -/
def update (userId : Nat) (b : Body) (sf : Option String) (s : Session) (db : Db) :
    Resp × Session × Db :=
  if truthy b.firstName && truthy b.lastName then
    match query sf (updateNames (jsStr b.firstName) (jsStr b.lastName) userId db) with
    | .resolved result =>
      if result.2 != 1 then
        ({ status := 400, message := "The user to update could not be found" }, s, result.1)
      else
        ({ status := 200,
           message := "Successfully updated user " ++ jsStr b.firstName ++ " " ++ jsStr b.lastName },
         s, result.1)
    | .rejected _ =>
      ({ status := 400, message := "The user to update could not be found" }, s, db)
  else
    ({ status := 400, message := "Not all mandatory fields are filled in" }, s, db)

/-- server.ts lines 514-538, `deleteUser`: delete by id; `affectedRows === 1`
answers 200, otherwise 400 "could not be found"; a rejected query maps
to 500. -/
def deleteUser (userId : Nat) (sf : Option String) (s : Session) (db : Db) :
    Resp × Session × Db :=
  match query sf (deleteById userId db) with
  | .resolved result =>
    if result.2 == 1 then
      ({ status := 200, message := "Successfully deleted user " }, s, result.1)
    else
      ({ status := 400, message := "The user to be deleted could not be found" }, s, result.1)
  | .rejected e =>
    ({ status := 500, message := "Database request failed: " ++ jsStr e }, s, db)

/-- server.ts lines 571-600, `getUserlist`: select all rows and answer 200
with their snapshots; a rejected query maps to 500. -/
def getUserlist (sf : Option String) (s : Session) (db : Db) : Resp × Session × Db :=
  match query sf (db : List Row) with
  | .resolved rows =>
    ({ status := 200, message := "Successfully requested user list",
       userList := some (rows.map rowSnapshot) }, s, db)
  | .rejected e =>
    ({ status := 500, message := "Database request failed: " ++ jsStr e }, s, db)

/-- The observable outcome of one request through a route's middleware chain
and handler: a response with the final session and database, or an uncaught
exception (see `Guard2.crash`). -/
inductive RouteResult where
  | ok : Resp → Session → Db → RouteResult
  | crash : RouteResult
deriving Repr, DecidableEq

/-- The final session of a route outcome, when it did not crash. -/
def RouteResult.sessionOut : RouteResult → Option Session
  | .ok _ s _ => some s
  | .crash => none

/-- The final database of a route outcome, when it did not crash. -/
def RouteResult.dbOut : RouteResult → Option Db
  | .ok _ _ db => some db
  | .crash => none

/-- A route guarded by `isLoggedIn()` alone. -/
def chain1 (handler : Session → Db → Resp × Session × Db) (s : Session) (db : Db) :
    RouteResult :=
  match isLoggedIn s with
  | .halt r => .ok r s db
  | .next =>
    match handler s db with
    | (r, s', db') => .ok r s' db'

/-- A route guarded by `isLoggedIn()` then `isPrivilegedAtLeast(rights)`,
in the order the routes declare them. -/
def chain2 (rights : Nat) (handler : Session → Db → Resp × Session × Db)
    (s : Session) (db : Db) : RouteResult :=
  match isLoggedIn s with
  | .halt r => .ok r s db
  | .next =>
    match isPrivilegedAtLeast rights s with
    | .crash => .crash
    | .halt r => .ok r s db
    | .next =>
      match handler s db with
      | (r, s', db') => .ok r s' db'

/-- `GET /login` (server.ts lines 173-178): session guard, then answer 200
with the session's user. -/
def getLoginRoute (s : Session) (db : Db) : RouteResult :=
  chain1 (fun s db =>
    ({ status := 200, message := "User still logged in", user := s.user }, s, db)) s db

/-- `POST /login` (server.ts lines 223-258): no guard. -/
def postLoginRoute (digest : Option String → String) (b : Body) (sf : Option String)
    (s : Session) (db : Db) : RouteResult :=
  match login digest b sf s db with
  | (r, s', db') => .ok r s' db'

/-- `POST /logout` (server.ts lines 274-280): no guard; delete
`req.session.user` and answer 200. -/
def postLogoutRoute (_ : Session) (db : Db) : RouteResult :=
  .ok { status := 200, message := "Successfully logged out" } ⟨none⟩ db

/-- `POST /user` (server.ts line 313): session guard, Admin guard, then
`createUser`. -/
def postUserRoute (digest : Option String → String) (now : String) (b : Body)
    (sf : Option String) (s : Session) (db : Db) : RouteResult :=
  chain2 Rights.Admin.ord (createUser digest now b sf) s db

/-- `GET /user/:userId` (server.ts line 389): session guard, then
`getUserfromId`. -/
def getUserRoute (userId : Nat) (sf : Option String) (s : Session) (db : Db) :
    RouteResult :=
  chain1 (getUserfromId userId sf) s db

/-- `PUT /user/:userId` (server.ts line 460): session guard, Admin guard,
then `update`. -/
def putUserRoute (userId : Nat) (b : Body) (sf : Option String) (s : Session)
    (db : Db) : RouteResult :=
  chain2 Rights.Admin.ord (update userId b sf) s db

/-- `DELETE /user/:userId` (server.ts line 514): session guard, Admin guard,
then `deleteUser`. -/
def deleteUserRoute (userId : Nat) (sf : Option String) (s : Session) (db : Db) :
    RouteResult :=
  chain2 Rights.Admin.ord (deleteUser userId sf) s db

/-- `GET /users` (server.ts line 571): session guard, then `getUserlist`. -/
def getUsersRoute (sf : Option String) (s : Session) (db : Db) : RouteResult :=
  chain1 (getUserlist sf) s db

/-! Concrete sample values, used to evaluate the theorems on closed inputs. -/

/-- A sample administrator snapshot. -/
def admUser : User := ⟨1, "admin", "Peter", "Kneisel", none, Rights.Admin.ord⟩

/-- A sample standard-rights snapshot. -/
def stdUser : User := ⟨2, "hans", "Hans", "Mustermann", none, Rights.User.ord⟩

/-- A sample digest function standing in for the external
`cryptoJS.SHA512(x).toString()` collaborator. -/
def dgt (p : Option String) : String := "digest:" ++ jsStr p

/-- Claim C1: every request to a session-guarded route (GET /login,
POST /user, GET /user/:id, PUT /user/:id, DELETE /user/:id, GET /users)
whose session holds no user is answered 401 with the "Session expired,
please log in again" message, the session and the database are unchanged,
and the outcome does not depend on any handler input (the handler never
executes). -/
theorem guard_no_session_shortcircuits (s : Session) (hs : s.user = none)
    (db : Db) (digest : Option String → String) (now : String) (b : Body)
    (userId : Nat) (sf : Option String) :
    getLoginRoute s db = .ok sessionExpiredResp s db ∧
    postUserRoute digest now b sf s db = .ok sessionExpiredResp s db ∧
    getUserRoute userId sf s db = .ok sessionExpiredResp s db ∧
    putUserRoute userId b sf s db = .ok sessionExpiredResp s db ∧
    deleteUserRoute userId sf s db = .ok sessionExpiredResp s db ∧
    getUsersRoute sf s db = .ok sessionExpiredResp s db := by
  obtain ⟨u⟩ := s
  simp only [Session.mk.injEq] at hs
  subst hs
  exact ⟨rfl, rfl, rfl, rfl, rfl, rfl⟩

/-- Witness for C1: the six guarded routes on the empty session. -/
theorem guard_no_session_shortcircuits_witness :
    getLoginRoute ⟨none⟩ [] = .ok sessionExpiredResp ⟨none⟩ [] ∧
    postUserRoute (fun _ => "") "" {} none ⟨none⟩ [] = .ok sessionExpiredResp ⟨none⟩ [] ∧
    getUserRoute 1 none ⟨none⟩ [] = .ok sessionExpiredResp ⟨none⟩ [] ∧
    putUserRoute 1 {} none ⟨none⟩ [] = .ok sessionExpiredResp ⟨none⟩ [] ∧
    deleteUserRoute 1 none ⟨none⟩ [] = .ok sessionExpiredResp ⟨none⟩ [] ∧
    getUsersRoute none ⟨none⟩ [] = .ok sessionExpiredResp ⟨none⟩ [] :=
  guard_no_session_shortcircuits ⟨none⟩ rfl [] (fun _ => "") "" {} 1 none

/-- Claim C2: the role guard rejects with the 403 response exactly when the
session user's role ordinal is strictly below the required minimum, passes
control to the next stage when it is at or above, and on the three Admin-
guarded routes a below-minimum session gets the 403 answer with session and
database unchanged and no dependence on any handler input. -/
theorem role_guard_ordinal_check (required : Nat) (u : User) (db : Db)
    (digest : Option String → String) (now : String) (b : Body) (userId : Nat)
    (sf : Option String) :
    (u.rights < required → isPrivilegedAtLeast required ⟨some u⟩ = .halt notAllowedResp) ∧
    (required ≤ u.rights → isPrivilegedAtLeast required ⟨some u⟩ = .next) ∧
    (u.rights < Rights.Admin.ord →
      postUserRoute digest now b sf ⟨some u⟩ db = .ok notAllowedResp ⟨some u⟩ db ∧
      putUserRoute userId b sf ⟨some u⟩ db = .ok notAllowedResp ⟨some u⟩ db ∧
      deleteUserRoute userId sf ⟨some u⟩ db = .ok notAllowedResp ⟨some u⟩ db) := by
  refine ⟨fun h => ?_, fun h => ?_, fun h => ?_⟩
  · simp [isPrivilegedAtLeast, h]
  · simp [isPrivilegedAtLeast, Nat.not_lt.mpr h]
  · refine ⟨?_, ?_, ?_⟩ <;>
      simp [postUserRoute, putUserRoute, deleteUserRoute, chain2, isLoggedIn,
        isPrivilegedAtLeast, h]

/-- Witness for C2: a standard user is rejected by the Admin guard and gets
403 from DELETE /user/:id; an admin passes the guard. -/
theorem role_guard_ordinal_check_witness :
    isPrivilegedAtLeast Rights.Admin.ord ⟨some stdUser⟩ = .halt notAllowedResp ∧
    isPrivilegedAtLeast Rights.Admin.ord ⟨some admUser⟩ = .next ∧
    deleteUserRoute 1 none ⟨some stdUser⟩ [] = .ok notAllowedResp ⟨some stdUser⟩ [] :=
  ⟨(role_guard_ordinal_check Rights.Admin.ord stdUser [] (fun _ => "") "" {} 1 none).1
      (by decide),
   (role_guard_ordinal_check Rights.Admin.ord admUser [] (fun _ => "") "" {} 1 none).2.1
      (by decide),
   ((role_guard_ordinal_check Rights.Admin.ord stdUser [] (fun _ => "") "" {} 1 none).2.2
      (by decide)).2.2⟩

/-- Claim C3: with a working store, POST /login answers 200 and stores the
snapshot of the matched row in the session exactly when the (username,
password digest) selection returns one row — the response carries the
snapshot, whose fields are id, username, firstName, lastName, creationTime
and rights, never the password digest; with zero or several matching rows it
answers 401 "Username or password is incorrect." and leaves the session and
database unchanged. -/
theorem login_exact_match_behavior (digest : Option String → String) (b : Body)
    (s : Session) (db : Db) :
    (∀ row : Row, selectUserPass b.username (digest b.password) db = [row] →
      postLoginRoute digest b none s db =
        .ok { status := 200, message := "Successfully logged in",
              user := some (loginSnapshot row) }
          ⟨some (loginSnapshot row)⟩ db) ∧
    ((selectUserPass b.username (digest b.password) db).length ≠ 1 →
      postLoginRoute digest b none s db =
        .ok { status := 401, message := "Username or password is incorrect." } s db) := by
  constructor
  · intro row hrow
    simp [postLoginRoute, login, query, hrow]
  · intro hlen
    rcases hsel : selectUserPass b.username (digest b.password) db with _ | ⟨a, _ | ⟨c, t⟩⟩
    · simp [postLoginRoute, login, query, hsel]
    · exact absurd (by rw [hsel]; rfl) hlen
    · simp [postLoginRoute, login, query, hsel]

/-- A row whose credentials match the sample body `bodyHans` under `dgt`. -/
def rowHans : Row :=
  ⟨1, "2020-01-01", "hans", dgt (some "pw"), "Hans", "Mustermann", Rights.User.ord⟩

/-- A sample login body matching `rowHans`. -/
def bodyHans : Body := { username := some "hans", password := some "pw" }

/-- Witness for C3: both branches evaluated on a one-row store. -/
theorem login_exact_match_behavior_witness :
    postLoginRoute dgt bodyHans none ⟨none⟩ [rowHans] =
      .ok { status := 200, message := "Successfully logged in",
            user := some (loginSnapshot rowHans) }
        ⟨some (loginSnapshot rowHans)⟩ [rowHans] ∧
    postLoginRoute dgt { username := some "hans", password := some "wrong" } none
        ⟨none⟩ [rowHans] =
      .ok { status := 401, message := "Username or password is incorrect." } ⟨none⟩ [rowHans] :=
  ⟨(login_exact_match_behavior dgt bodyHans ⟨none⟩ [rowHans]).1 rowHans (by decide),
   (login_exact_match_behavior dgt { username := some "hans", password := some "wrong" }
      ⟨none⟩ [rowHans]).2 (by decide)⟩

/-- The 500 response every handler actually produces on a store failure:
`query` rejects with the callback's `result` argument — `undefined` when the
driver reports an error — so the appended detail is always "undefined". -/
def dbFailResp : Resp := { status := 500, message := "Database request failed: undefined" }

/-- Claim C5 (code bug): on a store failure each of POST /login,
GET /user/:id, DELETE /user/:id and GET /users does catch the failure and
answer 500 — but `query` (server.ts line 73) calls `reject(result)` instead
of `reject(err)`, and `result` is undefined when the driver errs, so the body
is the constant "Database request failed: undefined": two distinct driver
errors ("ETIMEDOUT", "ECONNREFUSED") produce identical bodies and the
underlying failure detail is lost, contrary to the claim. -/
theorem store_failure_detail_dropped :
    postLoginRoute dgt {} (some "ETIMEDOUT") ⟨none⟩ [] = .ok dbFailResp ⟨none⟩ [] ∧
    postLoginRoute dgt {} (some "ECONNREFUSED") ⟨none⟩ [] = .ok dbFailResp ⟨none⟩ [] ∧
    getUserRoute 1 (some "ETIMEDOUT") ⟨some admUser⟩ [] = .ok dbFailResp ⟨some admUser⟩ [] ∧
    deleteUserRoute 1 (some "ETIMEDOUT") ⟨some admUser⟩ [] =
      .ok dbFailResp ⟨some admUser⟩ [] ∧
    getUsersRoute (some "ETIMEDOUT") ⟨some admUser⟩ [] = .ok dbFailResp ⟨some admUser⟩ [] ∧
    dbFailResp.message = "Database request failed: undefined" :=
  ⟨rfl, rfl, rfl, rfl, rfl, rfl⟩

/-- Claim C4: whatever POST /user does to the database under a logged-in
session, every row of the resulting database either was already present or
carries the role ordinal `Rights.User` — no request body content can create
a row with a higher role — and `Rights.User` is the lowest ordinal of the
enum. -/
theorem createUser_role_fixed_lowest (digest : Option String → String)
    (now : String) (b : Body) (sf : Option String) (u : User) (db db' : Db)
    (hdb : (postUserRoute digest now b sf ⟨some u⟩ db).dbOut = some db')
    (row : Row) (hrow : row ∈ db') :
    (row ∈ db ∨ row.rights = Rights.User.ord) ∧
    ∀ other : Rights, Rights.User.ord ≤ other.ord := by
  refine ⟨?_, fun other => by cases other <;> simp [Rights.ord]⟩
  by_cases hpriv : Rights.Admin.ord > u.rights
  · simp [postUserRoute, chain2, isLoggedIn, isPrivilegedAtLeast, hpriv,
      RouteResult.dbOut] at hdb
    subst hdb
    exact Or.inl hrow
  · by_cases hval : (truthy b.firstName && truthy b.lastName) = true
    · cases sf with
      | some e =>
        simp [postUserRoute, chain2, isLoggedIn, isPrivilegedAtLeast, hpriv,
          createUser, query, hval, RouteResult.dbOut] at hdb
        subst hdb
        exact Or.inl hrow
      | none =>
        simp [postUserRoute, chain2, isLoggedIn, isPrivilegedAtLeast, hpriv,
          createUser, query, hval, insertRow, RouteResult.dbOut] at hdb
        subst hdb
        rcases List.mem_append.mp hrow with h | h
        · exact Or.inl h
        · right
          rw [List.mem_singleton.mp h]
    · simp [postUserRoute, chain2, isLoggedIn, isPrivilegedAtLeast, hpriv,
        createUser, hval, RouteResult.dbOut] at hdb
      subst hdb
      exact Or.inl hrow

/-- A body carrying all four writable fields, matching `rowHans`. -/
def bodyHansFull : Body :=
  { username := some "hans", password := some "pw", firstName := some "Hans",
    lastName := some "Mustermann" }

/-- The row POST /user inserts into the empty store for `bodyHansFull`. -/
def insertedHans : Row :=
  ⟨1, "t", "hans", dgt (some "pw"), "Hans", "Mustermann", Rights.User.ord⟩

/-- Witness for C4: the row created from `bodyHansFull` on the empty store
carries the lowest role ordinal. -/
theorem createUser_role_fixed_lowest_witness :
    (insertedHans ∈ ([] : Db) ∨ insertedHans.rights = Rights.User.ord) ∧
    ∀ other : Rights, Rights.User.ord ≤ other.ord :=
  createUser_role_fixed_lowest dgt "t" bodyHansFull none admUser [] [insertedHans]
    rfl insertedHans (List.mem_singleton.mpr rfl)

/-- Claim C6: DELETE /user/:id under an admin session answers 200 exactly
when the store reports one affected row; zero affected rows get the 400
"could not be found" answer, never success; and a store failure is answered
500. -/
theorem deleteUser_outcomes (userId : Nat) (u : User) (db : Db)
    (hadm : Rights.Admin.ord ≤ u.rights) :
    ((db.filter (fun r => r.id == userId)).length = 1 →
      deleteUserRoute userId none ⟨some u⟩ db =
        .ok { status := 200, message := "Successfully deleted user " } ⟨some u⟩
          (db.filter (fun r => r.id != userId))) ∧
    ((db.filter (fun r => r.id == userId)).length = 0 →
      deleteUserRoute userId none ⟨some u⟩ db =
        .ok { status := 400, message := "The user to be deleted could not be found" }
          ⟨some u⟩ (db.filter (fun r => r.id != userId))) ∧
    (∀ e : String, deleteUserRoute userId (some e) ⟨some u⟩ db =
      .ok dbFailResp ⟨some u⟩ db) := by
  have hpriv : ¬ Rights.Admin.ord > u.rights := Nat.not_lt.mpr hadm
  refine ⟨fun h1 => ?_, fun h0 => ?_, fun e => ?_⟩
  · simp [deleteUserRoute, chain2, isLoggedIn, isPrivilegedAtLeast, hpriv,
      deleteUser, query, deleteById, h1]
  · simp [deleteUserRoute, chain2, isLoggedIn, isPrivilegedAtLeast, hpriv,
      deleteUser, query, deleteById, h0]
  · simp [deleteUserRoute, chain2, isLoggedIn, isPrivilegedAtLeast, hpriv,
      deleteUser, query, jsStr, dbFailResp]

/-- Witness for C6: deleting the only row succeeds, deleting an absent id is
answered 400, a failing store is answered 500. -/
theorem deleteUser_outcomes_witness :
    deleteUserRoute 1 none ⟨some admUser⟩ [rowHans] =
      .ok { status := 200, message := "Successfully deleted user " } ⟨some admUser⟩ [] ∧
    deleteUserRoute 42 none ⟨some admUser⟩ [rowHans] =
      .ok { status := 400, message := "The user to be deleted could not be found" }
        ⟨some admUser⟩ [rowHans] ∧
    deleteUserRoute 1 (some "ETIMEDOUT") ⟨some admUser⟩ [rowHans] =
      .ok dbFailResp ⟨some admUser⟩ [rowHans] :=
  ⟨(deleteUser_outcomes 1 admUser [rowHans] (by decide)).1 (by decide),
   (deleteUser_outcomes 42 admUser [rowHans] (by decide)).2.1 (by decide),
   (deleteUser_outcomes 1 admUser [rowHans] (by decide)).2.2 "ETIMEDOUT"⟩

/-- Pointwise frame relation for PUT /user/:id: the row at each position
keeps its id, username, password, creationTime and rights, and is wholly
unchanged unless its id is the targeted one. -/
def onlyNames (userId : Nat) (old new : Row) : Prop :=
  new.id = old.id ∧ new.username = old.username ∧ new.password = old.password ∧
  new.creationTime = old.creationTime ∧ new.rights = old.rights ∧
  (old.id ≠ userId → new = old)

lemma onlyNames_refl (userId : Nat) (r : Row) : onlyNames userId r r :=
  ⟨rfl, rfl, rfl, rfl, rfl, fun _ => rfl⟩

lemma forall2_onlyNames_refl (userId : Nat) (db : Db) :
    List.Forall₂ (onlyNames userId) db db := by
  induction db with
  | nil => exact List.Forall₂.nil
  | cons r t ih => exact List.Forall₂.cons (onlyNames_refl userId r) ih

lemma onlyNames_updRow (userId : Nat) (fn ln : String) (r : Row) :
    onlyNames userId r (updRow userId fn ln r) := by
  unfold updRow
  by_cases h : (r.id == userId) = true
  · rw [if_pos h]
    exact ⟨rfl, rfl, rfl, rfl, rfl, fun hne => absurd (eq_of_beq h) hne⟩
  · rw [if_neg h]
    exact onlyNames_refl userId r

lemma forall2_onlyNames_map (userId : Nat) (fn ln : String) (db : Db) :
    List.Forall₂ (onlyNames userId) db (db.map (updRow userId fn ln)) := by
  induction db with
  | nil => exact List.Forall₂.nil
  | cons r t ih => exact List.Forall₂.cons (onlyNames_updRow userId fn ln r) ih

/-- Claim C7: whatever PUT /user/:id does, the resulting database relates
row-by-row to the old one: every row keeps its id, username, password,
creationTime and rights, rows whose id differs from the targeted one are
wholly unchanged, and no row is added or removed. -/
theorem update_frame_property (userId : Nat) (b : Body) (sf : Option String)
    (s : Session) (db db' : Db)
    (hdb : (putUserRoute userId b sf s db).dbOut = some db') :
    List.Forall₂ (onlyNames userId) db db' := by
  obtain ⟨ou⟩ := s
  cases ou with
  | none =>
    simp [putUserRoute, chain2, isLoggedIn, RouteResult.dbOut] at hdb
    subst hdb
    exact forall2_onlyNames_refl userId db
  | some u =>
    by_cases hpriv : Rights.Admin.ord > u.rights
    · simp [putUserRoute, chain2, isLoggedIn, isPrivilegedAtLeast, hpriv,
        RouteResult.dbOut] at hdb
      subst hdb
      exact forall2_onlyNames_refl userId db
    · by_cases hval : (truthy b.firstName && truthy b.lastName) = true
      · cases sf with
        | some e =>
          simp [putUserRoute, chain2, isLoggedIn, isPrivilegedAtLeast, hpriv,
            update, query, hval, RouteResult.dbOut] at hdb
          subst hdb
          exact forall2_onlyNames_refl userId db
        | none =>
          cases haff :
              (updateNames (jsStr b.firstName) (jsStr b.lastName) userId db).2 != 1 with
          | true =>
            simp [putUserRoute, chain2, isLoggedIn, isPrivilegedAtLeast, hpriv,
              update, query, hval, haff, RouteResult.dbOut] at hdb
            subst hdb
            exact forall2_onlyNames_map userId _ _ db
          | false =>
            simp [putUserRoute, chain2, isLoggedIn, isPrivilegedAtLeast, hpriv,
              update, query, hval, haff, RouteResult.dbOut] at hdb
            subst hdb
            exact forall2_onlyNames_map userId _ _ db
      · simp [putUserRoute, chain2, isLoggedIn, isPrivilegedAtLeast, hpriv,
          update, hval, RouteResult.dbOut] at hdb
        subst hdb
        exact forall2_onlyNames_refl userId db

/-- Witness for C7: renaming the only row keeps its other columns. -/
theorem update_frame_property_witness :
    List.Forall₂ (onlyNames 1) [rowHans]
      [{ rowHans with firstName := "Peter", lastName := "Pan" }] :=
  update_frame_property 1 { firstName := some "Peter", lastName := some "Pan" }
    none ⟨some admUser⟩ [rowHans]
    [{ rowHans with firstName := "Peter", lastName := "Pan" }] rfl

/-- The logout success response. -/
def logoutOkResp : Resp := { status := 200, message := "Successfully logged out" }

/-- Claim C8: POST /logout answers 200 "Successfully logged out" and clears
the session user unconditionally, for every prior session state, and a second
logout from the resulting state yields the very same outcome (idempotence). -/
theorem logout_unconditional_idempotent (s : Session) (db : Db) :
    postLogoutRoute s db = .ok logoutOkResp ⟨none⟩ db ∧
    (∀ r s1 db1, postLogoutRoute s db = .ok r s1 db1 →
      postLogoutRoute s1 db1 = .ok r s1 db1) := by
  refine ⟨rfl, fun r s1 db1 h => ?_⟩
  have h' : RouteResult.ok logoutOkResp ⟨none⟩ db = .ok r s1 db1 := h
  injection h' with h1 h2 h3
  subst h1
  subst h2
  subst h3
  rfl

/-- Witness for C8: logout from a logged-in session, then logout again. -/
theorem logout_unconditional_idempotent_witness :
    postLogoutRoute ⟨some admUser⟩ [] = .ok logoutOkResp ⟨none⟩ [] ∧
    postLogoutRoute ⟨none⟩ [] = .ok logoutOkResp ⟨none⟩ [] :=
  ⟨(logout_unconditional_idempotent ⟨some admUser⟩ []).1,
   (logout_unconditional_idempotent ⟨some admUser⟩ []).2 logoutOkResp ⟨none⟩ []
     (logout_unconditional_idempotent ⟨some admUser⟩ []).1⟩

lemma chain2_ne_crash (rights : Nat) (handler : Session → Db → Resp × Session × Db)
    (s : Session) (db : Db) : chain2 rights handler s db ≠ .crash := by
  obtain ⟨ou⟩ := s
  cases ou with
  | none => simp [chain2, isLoggedIn]
  | some u =>
    by_cases hpriv : rights > u.rights
    · simp [chain2, isLoggedIn, isPrivilegedAtLeast, hpriv]
    · rcases hh : handler ⟨some u⟩ db with ⟨r, s', db'⟩
      simp [chain2, isLoggedIn, isPrivilegedAtLeast, hpriv, hh]

/-- Claim C9: on the three role-guarded routes the privilege guard runs
strictly after the session guard, so the unguarded dereference of
`req.session.user.rights` — which does crash on a session without a user,
last conjunct — is never reached: no request to POST /user, PUT /user/:id or
DELETE /user/:id ends in that crash, for any session. -/
theorem role_guard_never_crashes (digest : Option String → String) (now : String)
    (b : Body) (userId : Nat) (sf : Option String) (s : Session) (db : Db) :
    postUserRoute digest now b sf s db ≠ .crash ∧
    putUserRoute userId b sf s db ≠ .crash ∧
    deleteUserRoute userId sf s db ≠ .crash ∧
    (∀ required : Nat, isPrivilegedAtLeast required ⟨none⟩ = .crash) :=
  ⟨chain2_ne_crash _ _ s db, chain2_ne_crash _ _ s db, chain2_ne_crash _ _ s db,
   fun _ => rfl⟩

/-- Witness for C9: concrete requests with and without a session user do not
crash, while the bare guard on an empty session would. -/
theorem role_guard_never_crashes_witness :
    postUserRoute dgt "t" bodyHansFull none ⟨none⟩ [] ≠ .crash ∧
    deleteUserRoute 1 none ⟨some admUser⟩ [rowHans] ≠ .crash :=
  ⟨(role_guard_never_crashes dgt "t" bodyHansFull 1 none ⟨none⟩ []).1,
   (role_guard_never_crashes dgt "t" bodyHansFull 1 none ⟨some admUser⟩ [rowHans]).2.2.1⟩

lemma createUser_session (digest : Option String → String) (now : String)
    (b : Body) (sf : Option String) :
    ∀ s db, (createUser digest now b sf s db).2.1 = s := by
  intro s db
  unfold createUser
  dsimp only
  split
  · split <;> rfl
  · rfl

lemma getUserfromId_session (userId : Nat) (sf : Option String) :
    ∀ s db, (getUserfromId userId sf s db).2.1 = s := by
  intro s db
  unfold getUserfromId
  split
  · split <;> rfl
  · rfl

lemma update_session (userId : Nat) (b : Body) (sf : Option String) :
    ∀ s db, (update userId b sf s db).2.1 = s := by
  intro s db
  unfold update
  split
  · split
    · split <;> rfl
    · rfl
  · rfl

lemma deleteUser_session (userId : Nat) (sf : Option String) :
    ∀ s db, (deleteUser userId sf s db).2.1 = s := by
  intro s db
  unfold deleteUser
  split
  · split <;> rfl
  · rfl

lemma getUserlist_session (sf : Option String) :
    ∀ s db, (getUserlist sf s db).2.1 = s := by
  intro s db
  unfold getUserlist
  split <;> rfl

lemma chain1_sessionOut (handler : Session → Db → Resp × Session × Db)
    (hp : ∀ s db, (handler s db).2.1 = s) (s : Session) (db : Db) :
    (chain1 handler s db).sessionOut = some s := by
  obtain ⟨ou⟩ := s
  cases ou with
  | none => rfl
  | some u =>
    rcases hh : handler ⟨some u⟩ db with ⟨r, s', db'⟩
    have hs' : s' = ⟨some u⟩ := by
      have := hp ⟨some u⟩ db
      rw [hh] at this
      exact this
    simp [chain1, isLoggedIn, hh, RouteResult.sessionOut, hs']

lemma chain2_sessionOut (rights : Nat) (handler : Session → Db → Resp × Session × Db)
    (hp : ∀ s db, (handler s db).2.1 = s) (s : Session) (db : Db) :
    (chain2 rights handler s db).sessionOut = some s := by
  obtain ⟨ou⟩ := s
  cases ou with
  | none => rfl
  | some u =>
    by_cases hpriv : rights > u.rights
    · simp [chain2, isLoggedIn, isPrivilegedAtLeast, hpriv, RouteResult.sessionOut]
    · rcases hh : handler ⟨some u⟩ db with ⟨r, s', db'⟩
      have hs' : s' = ⟨some u⟩ := by
        have := hp ⟨some u⟩ db
        rw [hh] at this
        exact this
      simp [chain2, isLoggedIn, isPrivilegedAtLeast, hpriv, hh,
        RouteResult.sessionOut, hs']

/-- Claim C10: the session is written by exactly two operations: both
guards and the create/get/update/delete/list handlers leave it unchanged on
every path, POST /logout clears it, and POST /login changes it — to the
matched row's snapshot — only when the store works and the credential
selection returns exactly one row, leaving it unchanged otherwise. -/
theorem session_written_only_by_login_and_logout
    (digest : Option String → String) (now : String) (b : Body) (userId : Nat)
    (sf : Option String) (s : Session) (db : Db) :
    (getLoginRoute s db).sessionOut = some s ∧
    (postUserRoute digest now b sf s db).sessionOut = some s ∧
    (getUserRoute userId sf s db).sessionOut = some s ∧
    (putUserRoute userId b sf s db).sessionOut = some s ∧
    (deleteUserRoute userId sf s db).sessionOut = some s ∧
    (getUsersRoute sf s db).sessionOut = some s ∧
    (postLogoutRoute s db).sessionOut = some ⟨none⟩ ∧
    (∀ row : Row, sf = none →
      selectUserPass b.username (digest b.password) db = [row] →
      (postLoginRoute digest b sf s db).sessionOut = some ⟨some (loginSnapshot row)⟩) ∧
    ((selectUserPass b.username (digest b.password) db).length ≠ 1 ∨ sf ≠ none →
      (postLoginRoute digest b sf s db).sessionOut = some s) := by
  refine ⟨chain1_sessionOut _ (fun s db => rfl) s db,
    chain2_sessionOut _ _ (createUser_session digest now b sf) s db,
    chain1_sessionOut _ (getUserfromId_session userId sf) s db,
    chain2_sessionOut _ _ (update_session userId b sf) s db,
    chain2_sessionOut _ _ (deleteUser_session userId sf) s db,
    chain1_sessionOut _ (getUserlist_session sf) s db,
    rfl, ?_, ?_⟩
  · intro row hsf hrow
    subst hsf
    simp [postLoginRoute, login, query, hrow, RouteResult.sessionOut]
  · intro h
    cases sf with
    | some e => simp [postLoginRoute, login, query, RouteResult.sessionOut]
    | none =>
      rcases h with h | h
      · rcases hsel : selectUserPass b.username (digest b.password) db
          with _ | ⟨a, _ | ⟨c, t⟩⟩
        · simp [postLoginRoute, login, query, hsel, RouteResult.sessionOut]
        · exact absurd (by rw [hsel]; rfl) h
        · simp [postLoginRoute, login, query, hsel, RouteResult.sessionOut]
      · exact absurd rfl h

/-- Witness for C10: a read-only route keeps the admin session; a successful
login sets the matched snapshot; a failed login leaves the session empty. -/
theorem session_written_only_by_login_and_logout_witness :
    (getUsersRoute none ⟨some admUser⟩ [rowHans]).sessionOut = some ⟨some admUser⟩ ∧
    (postLoginRoute dgt bodyHans none ⟨none⟩ [rowHans]).sessionOut =
      some ⟨some (loginSnapshot rowHans)⟩ ∧
    (postLoginRoute dgt { username := some "hans", password := some "bad" } none
        ⟨none⟩ [rowHans]).sessionOut = some ⟨none⟩ :=
  ⟨(session_written_only_by_login_and_logout dgt "t" bodyHans 1 none
      ⟨some admUser⟩ [rowHans]).2.2.2.2.2.1,
   (session_written_only_by_login_and_logout dgt "t" bodyHans 1 none
      ⟨none⟩ [rowHans]).2.2.2.2.2.2.2.1 rowHans rfl (by decide),
   (session_written_only_by_login_and_logout dgt "t"
      { username := some "hans", password := some "bad" } 1 none
      ⟨none⟩ [rowHans]).2.2.2.2.2.2.2.2 (Or.inl (by decide))⟩

end Userman
